import Mathlib

/-!
Shallow embedding of the `sedbuilder` package (`src/sedbuilder/schemas.py`,
`src/sedbuilder/requests.py`): pydantic validation of SED Builder API
responses and their projections to astropy / jetset tables.

Python floats are modelled as rationals extended with NaN and the two
infinities; pydantic field constraints (`gt`, `ge`, `le`, `lt`) use
IEEE-style comparisons, where every comparison against NaN is false.
-/

/-- Model of a Python float: a rational value, NaN, or an infinity. -/
inductive PyFloat where
  | nan : PyFloat
  | inf : PyFloat
  | neginf : PyFloat
  | val : ℚ → PyFloat
deriving DecidableEq

/-- IEEE-style `<=`: false whenever either side is NaN. -/
def PyFloat.le : PyFloat → PyFloat → Bool
  | .nan, _ => false
  | _, .nan => false
  | .neginf, _ => true
  | _, .neginf => false
  | _, .inf => true
  | .inf, _ => false
  | .val a, .val b => decide (a ≤ b)

/-- IEEE-style `<`: false whenever either side is NaN. -/
def PyFloat.lt : PyFloat → PyFloat → Bool
  | .nan, _ => false
  | _, .nan => false
  | .neginf, .neginf => false
  | .neginf, _ => true
  | _, .neginf => false
  | .inf, _ => false
  | _, .inf => true
  | .val a, .val b => decide (a < b)

/-- A leaf value of the raw (already JSON-deserialized) input. -/
inductive JVal where
  | jnull : JVal
  | jstr : String → JVal
  | jnum : PyFloat → JVal
deriving DecidableEq

/-- A raw JSON object: association list from keys to leaf values. -/
def RawRow : Type := List (String × JVal)

/-- Key lookup on a raw object (first binding wins, as in a JSON object). -/
def getField (row : RawRow) (k : String) : Option JVal :=
  (row.find? (fun p => p.1 == k)).map (fun p => p.2)

/-- Replace the binding for key `k` in a raw object. -/
def setKey (row : RawRow) (k : String) (v : JVal) : RawRow :=
  (k, v) :: row.filter (fun p => p.1 != k)

/-! ## Validated data model (`schemas.py` pydantic models) -/

/-- `ResponseInfo`: status envelope (`statusCode` required str, `message` optional). -/
structure ResponseInfo where
  statusCode : String
  message : Option String
deriving DecidableEq

/-- `Properties`: per-source scalar property `Nh` (float, `ge=0`). -/
structure Properties where
  Nh : PyFloat
deriving DecidableEq

/-- `Catalog`: catalog metadata (`CatalogName` str, `ErrorRadius` float `ge=0`). -/
structure Catalog where
  CatalogName : String
  ErrorRadius : PyFloat
deriving DecidableEq

/-- `SourceData`: one measurement row. Required: `Frequency` (`gt=0`), `Nufnu`,
`FrequencyError` (`ge=0`), `NufnuError`. Optional: `Name` (default `""`),
`AngularDistance`/`StartTime`/`StopTime` (`ge=0`, default `None`),
`Info` (default `""`). -/
structure SourceData where
  Frequency : PyFloat
  Nufnu : PyFloat
  FrequencyError : PyFloat
  NufnuError : PyFloat
  Name : Option String
  AngularDistance : Option PyFloat
  StartTime : Option PyFloat
  StopTime : Option PyFloat
  Info : Option String
deriving DecidableEq

/-- `UpperLimits`: warning-only stub row, carrying only `Info` (str, default `None`). -/
structure UpperLimits where
  Info : Option String
deriving DecidableEq

/-- A row of `CatalogEntry.SourceData`: the union `SourceData | UpperLimits`. -/
inductive RowData where
  | measurement : SourceData → RowData
  | warning : UpperLimits → RowData
deriving DecidableEq

/-- `CatalogEntry`: catalog metadata plus its rows. -/
structure CatalogEntry where
  Catalog : Catalog
  SourceData : List RowData
deriving DecidableEq

/-- `Response`: the root model. -/
structure Response where
  ResponseInfo : ResponseInfo
  Properties : Properties
  Catalogs : List CatalogEntry
deriving DecidableEq

/-- `Response.is_successful`: true iff `statusCode == "OK"`. -/
def Response.is_successful (r : Response) : Bool :=
  r.ResponseInfo.statusCode == "OK"

/-! ## Field decoding (pydantic validation of raw objects) -/

/-- Decode a required float field: must be present, numeric, and pass `check`. -/
def decodeReqFloat (row : RawRow) (k : String) (check : PyFloat → Bool) : Option PyFloat :=
  match getField row k with
  | some (.jnum x) => if check x then some x else none
  | _ => none

/-- Decode an `Optional[float]` field with default `None`: absent or null gives
`none`; a number must pass `check`; a string fails. -/
def decodeOptFloat (row : RawRow) (k : String) (check : PyFloat → Bool) :
    Option (Option PyFloat) :=
  match getField row k with
  | none => some none
  | some .jnull => some none
  | some (.jnum x) => if check x then some (some x) else none
  | some (.jstr _) => none

/-- Decode an `Optional[str]` field with default `dflt`: absent gives the
default; null gives `none`; a number fails. -/
def decodeOptStr (row : RawRow) (k : String) (dflt : Option String) :
    Option (Option String) :=
  match getField row k with
  | none => some dflt
  | some .jnull => some none
  | some (.jstr s) => some (some s)
  | some (.jnum _) => none

/-- Decode a required str field. -/
def decodeReqStr (row : RawRow) (k : String) : Option String :=
  match getField row k with
  | some (.jstr s) => some s
  | _ => none

/-- Validate a raw object against the `SourceData` model. -/
def decodeSourceData (row : RawRow) : Option SourceData := do
  let f ← decodeReqFloat row "Frequency" (fun x => PyFloat.lt (.val 0) x)
  let n ← decodeReqFloat row "Nufnu" (fun _ => true)
  let fe ← decodeReqFloat row "FrequencyError" (fun x => PyFloat.le (.val 0) x)
  let ne ← decodeReqFloat row "NufnuError" (fun _ => true)
  let name ← decodeOptStr row "Name" (some "")
  let ad ← decodeOptFloat row "AngularDistance" (fun x => PyFloat.le (.val 0) x)
  let st ← decodeOptFloat row "StartTime" (fun x => PyFloat.le (.val 0) x)
  let sp ← decodeOptFloat row "StopTime" (fun x => PyFloat.le (.val 0) x)
  let info ← decodeOptStr row "Info" (some "")
  return ⟨f, n, fe, ne, name, ad, st, sp, info⟩

/-- Validate a raw object against the `UpperLimits` model: `Info` is typed
`str` with default `None`, so an absent `Info` defaults, a string validates,
anything else fails. -/
def decodeUpperLimits (row : RawRow) : Option UpperLimits :=
  match getField row "Info" with
  | none => some ⟨none⟩
  | some (.jstr s) => some ⟨some s⟩
  | some _ => none

/-- Decode one row of the union `SourceData | UpperLimits`: the richer
`SourceData` variant is attempted first, then `UpperLimits`. -/
def decodeRow (row : RawRow) : Option RowData :=
  match decodeSourceData row with
  | some m => some (.measurement m)
  | none =>
    match decodeUpperLimits row with
    | some w => some (.warning w)
    | none => none

/-- Validate a raw object against the `ResponseInfo` model. -/
def decodeResponseInfo (row : RawRow) : Option ResponseInfo := do
  let sc ← decodeReqStr row "statusCode"
  let msg ← decodeOptStr row "message" none
  return ⟨sc, msg⟩

/-- Validate a raw object against the `Properties` model. -/
def decodeProperties (row : RawRow) : Option Properties := do
  let nh ← decodeReqFloat row "Nh" (fun x => PyFloat.le (.val 0) x)
  return ⟨nh⟩

/-- Validate a raw object against the `Catalog` model. -/
def decodeCatalog (row : RawRow) : Option Catalog := do
  let n ← decodeReqStr row "CatalogName"
  let er ← decodeReqFloat row "ErrorRadius" (fun x => PyFloat.le (.val 0) x)
  return ⟨n, er⟩

/-- Raw shape of a `CatalogEntry` block. -/
structure RawCatalogEntry where
  catalog : RawRow
  sourceData : List RawRow

/-- Raw shape of a full response body. -/
structure RawResponse where
  responseInfo : RawRow
  properties : RawRow
  catalogs : List RawCatalogEntry

/-- Validate one raw catalog block. -/
def decodeCatalogEntry (rc : RawCatalogEntry) : Option CatalogEntry := do
  let c ← decodeCatalog rc.catalog
  let rows ← rc.sourceData.mapM decodeRow
  return ⟨c, rows⟩

/-- Validate a full raw response body: atomically, all parts or nothing. -/
def decodeResponse (raw : RawResponse) : Option Response := do
  let ri ← decodeResponseInfo raw.responseInfo
  let p ← decodeProperties raw.properties
  let cats ← raw.catalogs.mapM decodeCatalogEntry
  return ⟨ri, p, cats⟩

/-- Replace the `statusCode` binding of a raw response body. -/
def withStatusCode (raw : RawResponse) (s : String) : RawResponse :=
  ⟨setKey raw.responseInfo "statusCode" (.jstr s), raw.properties, raw.catalogs⟩

/-! ## `requests.py`: coordinate validation of `get_data` -/

/-- Outcome of a `get_data` call up to the network boundary: either the
coordinates pass `validate_call` and a network request is issued, or the
call is rejected before any network activity. -/
inductive GetDataStep where
  | networkCall : PyFloat → PyFloat → GetDataStep
  | rejected : GetDataStep
deriving DecidableEq

/-- The `validate_call` constraints on `get_data`: `ra` has `ge=0, lt=360`,
`dec` has `ge=-90, le=90`. -/
def validCoordinates (ra dec : PyFloat) : Bool :=
  PyFloat.le (.val 0) ra && PyFloat.lt ra (.val 360) &&
  PyFloat.le (.val (-90)) dec && PyFloat.le dec (.val 90)

/-- `get_data` up to the network boundary: validation precedes the request. -/
def get_data (ra dec : PyFloat) : GetDataStep :=
  if validCoordinates ra dec then .networkCall ra dec else .rejected

/-! ## Column registry (`AstropySchema`) and astropy tables -/

/-- Physical units used by the column registry. -/
inductive PhysUnit where
  | hz : PhysUnit
  | ergPerCm2s : PhysUnit
  | arcsec : PhysUnit
  | day : PhysUnit
  | perCm2 : PhysUnit
deriving DecidableEq

/-- Column dtypes used by the tables. -/
inductive DType where
  | float64 : DType
  | str : DType
  | bool : DType
deriving DecidableEq

/-- A column descriptor: name, dtype and optional unit (`DataColumn` /
`CatalogColumn` named tuples). -/
structure ColumnSpec where
  name : String
  dtype : DType
  units : Option PhysUnit
deriving DecidableEq

/-- Which block of the schema to iterate (the `kind` argument of
`AstropySchema.columns`). -/
inductive ColumnKind where
  | data : ColumnKind
  | catalog : ColumnKind
  | all : ColumnKind
deriving DecidableEq

namespace AstropySchema

def NAME : ColumnSpec := ⟨"Name", .str, none⟩

def FREQUENCY : ColumnSpec := ⟨"Frequency", .float64, some .hz⟩

def NUFNU : ColumnSpec := ⟨"Nufnu", .float64, some .ergPerCm2s⟩

def FREQUENCY_ERROR : ColumnSpec := ⟨"FrequencyError", .float64, some .hz⟩

def NUFNU_ERROR : ColumnSpec := ⟨"NufnuError", .float64, some .ergPerCm2s⟩

def ANGULAR_DISTANCE : ColumnSpec := ⟨"AngularDistance", .float64, some .arcsec⟩

def START_TIME : ColumnSpec := ⟨"StartTime", .float64, some .day⟩

def STOP_TIME : ColumnSpec := ⟨"StopTime", .float64, some .day⟩

def INFO : ColumnSpec := ⟨"Info", .str, none⟩

def CATALOG : ColumnSpec := ⟨"CatalogName", .str, none⟩

def ERROR_RADIUS : ColumnSpec := ⟨"ErrorRadius", .float64, some .arcsec⟩

/-- `AstropySchema.columns`: iterate the registry, defining table order. -/
def columns (kind : ColumnKind) : List ColumnSpec :=
  (if kind = .all ∨ kind = .data then
    [NAME, FREQUENCY, NUFNU, FREQUENCY_ERROR, NUFNU_ERROR,
     ANGULAR_DISTANCE, START_TIME, STOP_TIME, INFO]
  else []) ++
  (if kind = .all ∨ kind = .catalog then [CATALOG, ERROR_RADIUS] else [])

end AstropySchema

/-- A table cell: a float, a string, or a boolean. -/
inductive CellVal where
  | fval : PyFloat → CellVal
  | sval : String → CellVal
  | bval : Bool → CellVal
deriving DecidableEq

/-- Numpy conversion of an optional float into a float64 cell:
`None` becomes NaN. -/
def optFloatCell : Option PyFloat → CellVal
  | none => .fval .nan
  | some x => .fval x

/-- Numpy conversion of an optional string into a str cell:
`None` stringifies to `"None"`. -/
def optStrCell : Option String → CellVal
  | none => .sval "None"
  | some s => .sval s

/-- A metadata value: a bare float or string, or a float with a unit
(an astropy `Quantity`). -/
inductive MetaVal where
  | f : PyFloat → MetaVal
  | s : String → MetaVal
  | qty : PyFloat → PhysUnit → MetaVal
deriving DecidableEq

/-- A named, typed, unit-tagged table column with its values. -/
structure AColumn where
  name : String
  dtype : DType
  unit : Option PhysUnit
  values : List CellVal
deriving DecidableEq

/-- An astropy table: ordered columns plus a metadata map. -/
structure AstroTable where
  cols : List AColumn
  meta : List (String × MetaVal)
deriving DecidableEq

/-- Number of rows of a table (length of its first column). -/
def AstroTable.nrows (t : AstroTable) : Nat :=
  match t.cols with
  | [] => 0
  | c :: _ => c.values.length

/-- Look a column up by name. -/
def AstroTable.getCol (t : AstroTable) (n : String) : Option AColumn :=
  t.cols.find? (fun c => c.name == n)

/-- The cell `model_dump()[k]` of a measurement, as converted by numpy under
the schema dtypes. -/
def SourceData.dumpCell (m : SourceData) : String → CellVal
  | "Name" => optStrCell m.Name
  | "Frequency" => .fval m.Frequency
  | "Nufnu" => .fval m.Nufnu
  | "FrequencyError" => .fval m.FrequencyError
  | "NufnuError" => .fval m.NufnuError
  | "AngularDistance" => optFloatCell m.AngularDistance
  | "StartTime" => optFloatCell m.StartTime
  | "StopTime" => optFloatCell m.StopTime
  | "Info" => optStrCell m.Info
  | _ => .sval ""

/-- The cell `model_dump()[k]` of a catalog descriptor. -/
def Catalog.dumpCell (c : Catalog) : String → CellVal
  | "CatalogName" => .sval c.CatalogName
  | "ErrorRadius" => .fval c.ErrorRadius
  | _ => .sval ""

/-- The measurement rows of one catalog block, in order: `UpperLimits`
stubs are skipped by the `isinstance` filter in `to_astropy`. -/
def measurementsOf (ce : CatalogEntry) : List SourceData :=
  ce.SourceData.filterMap (fun rd =>
    match rd with
    | .measurement m => some m
    | .warning _ => none)

/-- The surviving rows of a response, each paired with its parent catalog,
in catalog-then-row order (the double loop of `to_astropy`). -/
def measurements (r : Response) : List (SourceData × Catalog) :=
  (r.Catalogs.map (fun ce => (measurementsOf ce).map (fun m => (m, ce.Catalog)))).flatten

/-- Boolean test used to count `SourceData` rows of the union. -/
def isMeasurement : RowData → Bool
  | .measurement _ => true
  | .warning _ => false

/-- The error kinds raised by the conversion methods: one named
`validate_call` error per parameter constraint of `to_jetset`, the
`KeyError` raised by a missing column access, and the `ValueError` raised by
astropy `Table` construction. -/
inductive PyError where
  | invalidZ : PyError
  | invalidUlCl : PyError
  | invalidRestframe : PyError
  | invalidDataScale : PyError
  | keyError : String → PyError
  | valueError : String → PyError
deriving DecidableEq

/-- `Response.to_astropy`: build the data-column table and the catalog-column
table from the registry, hstack them, and attach `Nh` (with its unit) to the
metadata. When no measurement rows survive the filter, `rows_data` is the
empty list and astropy `Table([], names=[...9 names...], dtype=[...])`
raises `ValueError`: the empty list is not recognized as a list of dicts, so
`n_cols` is taken as `len(data) = 0` and the names/dtype length check fails. -/
def Response.to_astropy (r : Response) : Except PyError AstroTable :=
  let ms := measurements r
  if ms.isEmpty then
    .error (.valueError "Arguments \"names\" and \"dtype\" must match number of columns")
  else
    .ok {
      cols :=
        (AstropySchema.columns .data).map (fun c =>
          ⟨c.name, c.dtype, c.units, ms.map (fun p => p.1.dumpCell c.name)⟩) ++
        (AstropySchema.columns .catalog).map (fun c =>
          ⟨c.name, c.dtype, c.units, ms.map (fun p => p.2.dumpCell c.name)⟩),
      meta := [("Nh", .qty r.Properties.Nh .perCm2)] }

/-- One call of the `to_astropy` method in state-passing form: the outcome
together with the receiver as left after the call (the method only reads
`self`, so the receiver is returned unchanged). -/
def toAstropyCall (r : Response) : Except PyError AstroTable × Response :=
  (Response.to_astropy r, r)

/-! ## `Response.to_jetset` -/

/-- The `ge=0.0, le=1.0` constraint shared by `z` and `ul_cl`. -/
def checkUnitInterval (x : PyFloat) : Bool :=
  PyFloat.le (.val 0) x && PyFloat.le x (.val 1)

/-- Column access `t[name]`: a missing column raises `KeyError(name)`. -/
def getColE (t : AstroTable) (n : String) : Except PyError AColumn :=
  match t.getCol n with
  | some c => .ok c
  | none => .error (.keyError n)

/-- `np.nan_to_num(x, nan=0.0)`: NaN becomes 0.0; infinities become the
largest finite float64 values. -/
def PyFloat.nanToNum : PyFloat → PyFloat
  | .nan => .val 0
  | .inf => .val ((2 ^ 53 - 1) * 2 ^ 971)
  | .neginf => .val (-((2 ^ 53 - 1) * 2 ^ 971))
  | .val q => .val q

/-- `np.nan_to_num` applied to a float64 cell. -/
def nanToNumCell : CellVal → CellVal
  | .fval x => .fval x.nanToNum
  | c => c

/-- The table-construction body of `to_jetset`, operating on the projected
source table `t`: columns are read in source order (`Frequency`,
`FrequencyError`, `Nufnu`, `NufnuError`, `StartTime`, `StopTime`,
`CatalogName`) and re-emitted under the jetset names. `T_start`/`T_stop`
are built from `.value` (the bare array, hence unitless) through
`np.nan_to_num`; `UL` is `np.zeros(len(t), dtype=bool)`. -/
def jetsetFromTable (t : AstroTable) (z ul_cl : PyFloat)
    (restframe data_scale obj_name : String) : Except PyError AstroTable := do
  let cx ← getColE t "Frequency"
  let cdx ← getColE t "FrequencyError"
  let cy ← getColE t "Nufnu"
  let cdy ← getColE t "NufnuError"
  let cts ← getColE t "StartTime"
  let ctp ← getColE t "StopTime"
  let cds ← getColE t "CatalogName"
  return {
    cols := [
      ⟨"x", .float64, cx.unit, cx.values⟩,
      ⟨"dx", .float64, cdx.unit, cdx.values⟩,
      ⟨"y", .float64, cy.unit, cy.values⟩,
      ⟨"dy", .float64, cdy.unit, cdy.values⟩,
      ⟨"T_start", .float64, none, cts.values.map nanToNumCell⟩,
      ⟨"T_stop", .float64, none, ctp.values.map nanToNumCell⟩,
      ⟨"UL", .bool, none, List.replicate t.nrows (.bval false)⟩,
      ⟨"dataset", .str, cds.unit, cds.values⟩],
    meta := [("z", .f z), ("UL_CL", .f ul_cl), ("restframe", .s restframe),
             ("data_scale", .s data_scale), ("obj_name", .s obj_name)] }

/-- `Response.to_jetset`: `validate_call` checks the parameters against their
declared constraints (note: `obj_name` is a bare `str` field with no
constraint), then the table body runs on `self.to_astropy()`; an error
raised inside `to_astropy` propagates. -/
def Response.to_jetset (r : Response) (z ul_cl : PyFloat)
    (restframe data_scale obj_name : String) : Except PyError AstroTable :=
  if checkUnitInterval z then
    if checkUnitInterval ul_cl then
      if restframe == "obs" || restframe == "src" then
        if data_scale == "lin-lin" || data_scale == "log-log" then
          Response.to_astropy r >>= fun t =>
            jetsetFromTable t z ul_cl restframe data_scale obj_name
        else .error .invalidDataScale
      else .error .invalidRestframe
    else .error .invalidUlCl
  else .error .invalidZ

/-- Columns read by the `to_jetset` body, in access order. -/
def jetsetRequired : List String :=
  ["Frequency", "FrequencyError", "Nufnu", "NufnuError",
   "StartTime", "StopTime", "CatalogName"]

/-! ## Decidability of `Except` results and concrete sample inputs -/

instance {ε α : Type} [DecidableEq ε] [DecidableEq α] : DecidableEq (Except ε α) :=
  fun a b =>
    match a, b with
    | .ok x, .ok y =>
      if h : x = y then .isTrue (by rw [h]) else .isFalse (by intro hc; cases hc; exact h rfl)
    | .error x, .error y =>
      if h : x = y then .isTrue (by rw [h]) else .isFalse (by intro hc; cases hc; exact h rfl)
    | .ok _, .error _ => .isFalse (by intro hc; cases hc)
    | .error _, .ok _ => .isFalse (by intro hc; cases hc)

/-- A sample measurement row; `StartTime` is `None`, so its table cell is NaN. -/
def m1 : SourceData :=
  ⟨.val 100000000000000, .val 2, .val 1000000000000,
   .val 3, some "", none, none, some (.val 59000), some ""⟩

/-- A sample response: one catalog block holding one measurement and one
warning stub. -/
def r1 : Response :=
  ⟨⟨"OK", none⟩, ⟨.val 100000000000000000000⟩,
   [⟨⟨"C1", .val 5⟩, [.measurement m1, .warning ⟨some "Upper Limit"⟩]⟩]⟩

/-- A sample response with no catalog blocks at all. -/
def r0 : Response :=
  ⟨⟨"ERROR", some "no data"⟩, ⟨.val 0⟩, []⟩

/-- A sample table that lacks both `StartTime` and `StopTime` but has every
other column required by the jetset rename map. -/
def t0 : AstroTable :=
  ⟨[⟨"Frequency", .float64, some .hz, []⟩,
    ⟨"FrequencyError", .float64, some .hz, []⟩,
    ⟨"Nufnu", .float64, some .ergPerCm2s, []⟩,
    ⟨"NufnuError", .float64, some .ergPerCm2s, []⟩,
    ⟨"CatalogName", .str, none, []⟩], []⟩

/-- A raw row holding exactly the four required measurement fields. -/
def rowM : RawRow :=
  [("Frequency", .jnum (.val 1)), ("Nufnu", .jnum (.val 2)),
   ("FrequencyError", .jnum (.val 0)), ("NufnuError", .jnum (.val 3))]

/-- A raw warning row: only an `Info` string. -/
def rowW : RawRow :=
  [("Info", .jstr "Upper Limit")]

/-- A raw row matching neither variant: no measurement fields and a
non-string `Info`. -/
def rowBad : RawRow :=
  [("Info", .jnum (.val 7))]

/-- A valid raw response body with no catalog blocks. -/
def raw1 : RawResponse :=
  ⟨[("statusCode", .jstr "OK")], [("Nh", .jnum (.val 1))], []⟩

/-- A raw response body whose only row matches neither variant. -/
def rawBad : RawResponse :=
  ⟨[("statusCode", .jstr "OK")], [("Nh", .jnum (.val 1))],
   [⟨[("CatalogName", .jstr "C1"), ("ErrorRadius", .jnum (.val 5))], [rowBad]⟩]⟩

/-- A sample response whose only row is a warning stub: zero measurement
rows survive the filter. -/
def rStub : Response :=
  ⟨⟨"OK", none⟩, ⟨.val 1⟩,
   [⟨⟨"C1", .val 5⟩, [.warning ⟨some "Upper Limit"⟩]⟩]⟩

/-- The table projected from `r1`: one row, eleven columns, `Nh` metadata. -/
def tbl1 : AstroTable :=
  { cols := [
      ⟨"Name", .str, none, [.sval ""]⟩,
      ⟨"Frequency", .float64, some .hz, [.fval (.val 100000000000000)]⟩,
      ⟨"Nufnu", .float64, some .ergPerCm2s, [.fval (.val 2)]⟩,
      ⟨"FrequencyError", .float64, some .hz, [.fval (.val 1000000000000)]⟩,
      ⟨"NufnuError", .float64, some .ergPerCm2s, [.fval (.val 3)]⟩,
      ⟨"AngularDistance", .float64, some .arcsec, [.fval .nan]⟩,
      ⟨"StartTime", .float64, some .day, [.fval .nan]⟩,
      ⟨"StopTime", .float64, some .day, [.fval (.val 59000)]⟩,
      ⟨"Info", .str, none, [.sval ""]⟩,
      ⟨"CatalogName", .str, none, [.sval "C1"]⟩,
      ⟨"ErrorRadius", .float64, some .arcsec, [.fval (.val 5)]⟩],
    meta := [("Nh", .qty (.val 100000000000000000000) .perCm2)] }

/-! ## Helper lemmas -/

/-- The length of the measurement filter equals the measurement count. -/
theorem length_filterMap_measurement (l : List RowData) :
    (l.filterMap (fun rd => match rd with
      | .measurement m => some m
      | .warning _ => none)).length = l.countP isMeasurement := by
  induction l with
  | nil => rfl
  | cons rd tl ih =>
    cases rd with
    | measurement m => simp [List.filterMap_cons, List.countP_cons, isMeasurement, ih]
    | warning w => simp [List.filterMap_cons, List.countP_cons, isMeasurement, ih]

/-- Mapping over the surviving rows agrees with the flattened per-catalog map. -/
theorem map_measurements {α : Type} (r : Response) (f : SourceData × Catalog → α)
    (g : CatalogEntry → SourceData → α)
    (hfg : ∀ ce : CatalogEntry, ∀ m : SourceData, f (m, ce.Catalog) = g ce m) :
    (measurements r).map f
      = (r.Catalogs.map (fun ce => (measurementsOf ce).map (g ce))).flatten := by
  unfold measurements
  rw [List.map_flatten f _, List.map_map]
  congr 1
  apply List.map_congr_left
  intro ce _
  rw [Function.comp_apply, List.map_map]
  apply List.map_congr_left
  intro m _
  exact hfg ce m

/-- C1 (code bug): wherever the projection returns a table, its row count
equals the count of rows classified as `SourceData` across all catalog
blocks, every column has that length, and the values appear in
catalog-then-row order; but at a response whose only row is an
`UpperLimits` warning stub, zero rows survive the filter and the source
raises the astropy empty-table `ValueError` instead of returning a zero-row
table, so warning rows do cause `to_astropy` to raise. -/
theorem to_astropy_filtering_law :
    (∀ (r : Response) (t : AstroTable), Response.to_astropy r = .ok t →
        t.nrows = (r.Catalogs.map (fun ce => ce.SourceData.countP isMeasurement)).sum
          ∧ (∀ c ∈ t.cols, c.values.length = t.nrows)
          ∧ (t.getCol "Frequency").map AColumn.values
              = some ((r.Catalogs.map (fun ce =>
                  (measurementsOf ce).map (fun m => CellVal.fval m.Frequency))).flatten))
      ∧ Response.to_astropy rStub = .error
          (.valueError "Arguments \"names\" and \"dtype\" must match number of columns")
      ∧ (rStub.Catalogs.map (fun ce => ce.SourceData.countP isMeasurement)).sum = 0 := by
  refine ⟨?_, by decide, by decide⟩
  intro r t ht
  simp only [Response.to_astropy] at ht
  split at ht
  · exact Except.noConfusion ht
  · have hT := Except.ok.inj ht
    subst hT
    have hn : ((measurements r).map (fun p => optStrCell p.1.Name)).length
        = (measurements r).length := List.length_map ..
    have hms : (measurements r).length
        = (r.Catalogs.map (fun ce => ce.SourceData.countP isMeasurement)).sum := by
      unfold measurements
      rw [List.length_flatten, List.map_map]
      congr 1
      apply List.map_congr_left
      intro ce _
      rw [Function.comp_apply, List.length_map]
      exact length_filterMap_measurement ce.SourceData
    refine ⟨hn.trans hms, ?_, ?_⟩
    · intro c hc
      rcases List.mem_append.mp hc with h | h <;>
        rcases List.mem_map.mp h with ⟨spec, _, rfl⟩ <;>
        simp only [List.length_map] <;>
        exact hn.symm
    · show some ((measurements r).map (fun p => CellVal.fval p.1.Frequency))
          = some ((r.Catalogs.map (fun ce =>
              (measurementsOf ce).map (fun m => CellVal.fval m.Frequency))).flatten)
      exact congrArg some
        (map_measurements r _ (fun _ m => CellVal.fval m.Frequency) (fun _ _ => rfl))

/-- C1 (witness): the row-count law applied to the sample response and its
projected table. -/
theorem to_astropy_filtering_law_witness :
    tbl1.nrows = (r1.Catalogs.map (fun ce => ce.SourceData.countP isMeasurement)).sum
      ∧ (∀ c ∈ tbl1.cols, c.values.length = tbl1.nrows)
      ∧ (tbl1.getCol "Frequency").map AColumn.values
          = some ((r1.Catalogs.map (fun ce =>
              (measurementsOf ce).map (fun m => CellVal.fval m.Frequency))).flatten) :=
  to_astropy_filtering_law.1 r1 tbl1 (by decide)

/-- C2 (amended): whenever `to_astropy` returns a table, the table exposes,
in order, the columns Name, Frequency, Nufnu, FrequencyError, NufnuError,
AngularDistance, StartTime, StopTime, Info, CatalogName, ErrorRadius with
their declared dtypes and units; at a zero-measurement response no table is
produced at all (the astropy `ValueError` of C1). -/
theorem to_astropy_column_contract (r : Response) (t : AstroTable)
    (ht : Response.to_astropy r = .ok t) :
    t.cols.map (fun c => (c.name, c.dtype, c.unit)) =
      [("Name", DType.str, none), ("Frequency", DType.float64, some PhysUnit.hz),
       ("Nufnu", DType.float64, some PhysUnit.ergPerCm2s),
       ("FrequencyError", DType.float64, some PhysUnit.hz),
       ("NufnuError", DType.float64, some PhysUnit.ergPerCm2s),
       ("AngularDistance", DType.float64, some PhysUnit.arcsec),
       ("StartTime", DType.float64, some PhysUnit.day),
       ("StopTime", DType.float64, some PhysUnit.day),
       ("Info", DType.str, none), ("CatalogName", DType.str, none),
       ("ErrorRadius", DType.float64, some PhysUnit.arcsec)] := by
  simp only [Response.to_astropy] at ht
  split at ht
  · exact Except.noConfusion ht
  · have hT := Except.ok.inj ht
    subst hT
    rfl

/-- C2 (witness): the column contract applied to the sample response and its
projected table. -/
theorem to_astropy_column_contract_witness :
    tbl1.cols.map (fun c => (c.name, c.dtype, c.unit)) =
      [("Name", DType.str, none), ("Frequency", DType.float64, some PhysUnit.hz),
       ("Nufnu", DType.float64, some PhysUnit.ergPerCm2s),
       ("FrequencyError", DType.float64, some PhysUnit.hz),
       ("NufnuError", DType.float64, some PhysUnit.ergPerCm2s),
       ("AngularDistance", DType.float64, some PhysUnit.arcsec),
       ("StartTime", DType.float64, some PhysUnit.day),
       ("StopTime", DType.float64, some PhysUnit.day),
       ("Info", DType.str, none), ("CatalogName", DType.str, none),
       ("ErrorRadius", DType.float64, some PhysUnit.arcsec)] :=
  to_astropy_column_contract r1 tbl1 (by decide)

/-- C2 (counterexample): at the sample response (where the source does
compute a table) the catalog-identity column is named `CatalogName`, not
`Catalog`, so the claimed name list does not match; and at a response with
no catalog blocks no table is produced at all. -/
theorem to_astropy_column_names_counterexample :
    (Response.to_astropy r1).toOption.map (fun t => t.cols.map AColumn.name)
        = some ["Name", "Frequency", "Nufnu", "FrequencyError", "NufnuError",
                "AngularDistance", "StartTime", "StopTime", "Info", "CatalogName",
                "ErrorRadius"]
      ∧ ¬ ((Response.to_astropy r1).toOption.map (fun t => t.cols.map AColumn.name)
          = some ["Name", "Frequency", "Nufnu", "FrequencyError", "NufnuError",
                  "AngularDistance", "StartTime", "StopTime", "Info", "Catalog",
                  "ErrorRadius"])
      ∧ (Response.to_astropy r0).toOption = none := by
  decide

/-- C10 (code bug): the call is pure (the receiver is unchanged) and
deterministic (a second call returns the identical outcome), but at a
response with zero surviving measurement rows the source raises the astropy
`ValueError` and yields no table at all, against the documented return of a
table for every valid response. -/
theorem to_astropy_pure_and_idempotent :
    (∀ r : Response, (toAstropyCall r).2 = r)
      ∧ (∀ r : Response, (toAstropyCall ((toAstropyCall r).2)).1 = (toAstropyCall r).1)
      ∧ Response.to_astropy r0 = .error
          (.valueError "Arguments \"names\" and \"dtype\" must match number of columns") :=
  ⟨fun _ => rfl, fun _ => rfl, by decide⟩

/-- C3 (amended): wherever the projection succeeds, under valid parameters
`to_jetset` renames Frequency→x, FrequencyError→dx, Nufnu→y, NufnuError→dy,
StartTime→T_start, StopTime→T_stop, CatalogName→dataset; x, dx, y, dy keep
their source units and values, but T_start and T_stop are emitted with no
unit (the day unit of StartTime/StopTime is dropped by the `.value`
extraction); at a zero-measurement response `to_jetset` propagates the
`ValueError` raised inside `to_astropy` and produces no table. -/
theorem to_jetset_renaming (r : Response) (t : AstroTable) (z ul : PyFloat)
    (rf ds objName : String) (ht : Response.to_astropy r = .ok t)
    (hz : checkUnitInterval z = true) (hu : checkUnitInterval ul = true)
    (hrf : (rf == "obs" || rf == "src") = true)
    (hds : (ds == "lin-lin" || ds == "log-log") = true) :
    ∃ jt, Response.to_jetset r z ul rf ds objName = .ok jt
      ∧ jt.cols.map (fun c => (c.name, c.unit)) =
          [("x", some PhysUnit.hz), ("dx", some PhysUnit.hz),
           ("y", some PhysUnit.ergPerCm2s), ("dy", some PhysUnit.ergPerCm2s),
           ("T_start", none), ("T_stop", none), ("UL", none), ("dataset", none)]
      ∧ (jt.getCol "x").map AColumn.values = (t.getCol "Frequency").map AColumn.values
      ∧ (jt.getCol "dx").map AColumn.values
          = (t.getCol "FrequencyError").map AColumn.values
      ∧ (jt.getCol "y").map AColumn.values = (t.getCol "Nufnu").map AColumn.values
      ∧ (jt.getCol "dy").map AColumn.values
          = (t.getCol "NufnuError").map AColumn.values
      ∧ (jt.getCol "dataset").map AColumn.values
          = (t.getCol "CatalogName").map AColumn.values := by
  have hok : Response.to_jetset r z ul rf ds objName
      = jetsetFromTable t z ul rf ds objName := by
    simp [Response.to_jetset, hz, hu, hrf, hds, ht]
    rfl
  simp only [Response.to_astropy] at ht
  split at ht
  · exact Except.noConfusion ht
  · have hT := Except.ok.inj ht
    subst hT
    exact ⟨_, hok.trans rfl, rfl, rfl, rfl, rfl, rfl, rfl⟩

/-- C3 (witness): the renaming theorem applied to the sample response and
its projected table. -/
theorem to_jetset_renaming_witness :
    ∃ jt, Response.to_jetset r1 (.val 1) (.val 1) "obs" "lin-lin" "new-src" = .ok jt
      ∧ jt.cols.map (fun c => (c.name, c.unit)) =
          [("x", some PhysUnit.hz), ("dx", some PhysUnit.hz),
           ("y", some PhysUnit.ergPerCm2s), ("dy", some PhysUnit.ergPerCm2s),
           ("T_start", none), ("T_stop", none), ("UL", none), ("dataset", none)]
      ∧ (jt.getCol "x").map AColumn.values = (tbl1.getCol "Frequency").map AColumn.values
      ∧ (jt.getCol "dx").map AColumn.values
          = (tbl1.getCol "FrequencyError").map AColumn.values
      ∧ (jt.getCol "y").map AColumn.values = (tbl1.getCol "Nufnu").map AColumn.values
      ∧ (jt.getCol "dy").map AColumn.values
          = (tbl1.getCol "NufnuError").map AColumn.values
      ∧ (jt.getCol "dataset").map AColumn.values
          = (tbl1.getCol "CatalogName").map AColumn.values :=
  to_jetset_renaming r1 tbl1 (.val 1) (.val 1) "obs" "lin-lin" "new-src"
    (by decide) (by decide) (by decide) (by decide) (by decide)

/-- C3 (counterexample): at the sample response the emitted T_start and
T_stop columns carry no unit while their source columns StartTime and
StopTime carried the day unit, so units are not preserved under the rename;
and at a response with no catalog blocks `to_jetset` produces no table at
all under valid parameters. -/
theorem to_jetset_unit_drop_counterexample :
    (Response.to_jetset r1 (.val 1) (.val 1) "obs" "lin-lin" "new-src").toOption.map
        (fun jt => jt.cols.map (fun c => (c.name, c.unit)))
      = some [("x", some PhysUnit.hz), ("dx", some PhysUnit.hz),
              ("y", some PhysUnit.ergPerCm2s), ("dy", some PhysUnit.ergPerCm2s),
              ("T_start", none), ("T_stop", none), ("UL", none), ("dataset", none)]
      ∧ Response.to_astropy r1 = .ok tbl1
      ∧ (tbl1.getCol "StartTime").map (fun c => c.unit) = some (some PhysUnit.day)
      ∧ (tbl1.getCol "StopTime").map (fun c => c.unit) = some (some PhysUnit.day)
      ∧ Response.to_jetset r0 (.val 1) (.val 1) "obs" "lin-lin" "new-src"
        = .error (.valueError
            "Arguments \"names\" and \"dtype\" must match number of columns") := by
  decide

/-- C9: wherever the projection succeeds, under valid parameters the T_start
and T_stop columns are the StartTime and StopTime columns passed through
`np.nan_to_num(·, nan=0.0)` (so every NaN becomes 0.0), and the synthesized
UL column is an all-False boolean column whose length is the length of the
projected table, whatever the rows' Info values are. -/
theorem to_jetset_nan_and_ul (r : Response) (t : AstroTable) (z ul : PyFloat)
    (rf ds objName : String) (ht : Response.to_astropy r = .ok t)
    (hz : checkUnitInterval z = true) (hu : checkUnitInterval ul = true)
    (hrf : (rf == "obs" || rf == "src") = true)
    (hds : (ds == "lin-lin" || ds == "log-log") = true) :
    ∃ jt, Response.to_jetset r z ul rf ds objName = .ok jt
      ∧ (jt.getCol "T_start").map AColumn.values
          = (t.getCol "StartTime").map (fun c => c.values.map nanToNumCell)
      ∧ (jt.getCol "T_stop").map AColumn.values
          = (t.getCol "StopTime").map (fun c => c.values.map nanToNumCell)
      ∧ nanToNumCell (.fval .nan) = .fval (.val 0)
      ∧ (jt.getCol "UL").map AColumn.values
          = some (List.replicate t.nrows (CellVal.bval false)) := by
  have hok : Response.to_jetset r z ul rf ds objName
      = jetsetFromTable t z ul rf ds objName := by
    simp [Response.to_jetset, hz, hu, hrf, hds, ht]
    rfl
  simp only [Response.to_astropy] at ht
  split at ht
  · exact Except.noConfusion ht
  · have hT := Except.ok.inj ht
    subst hT
    exact ⟨_, hok.trans rfl, rfl, rfl, rfl, rfl⟩

/-- C9 (witness): the NaN coercion theorem applied to the sample response,
whose one measurement has `StartTime = None` and hence a NaN cell. -/
theorem to_jetset_nan_and_ul_witness :
    ∃ jt, Response.to_jetset r1 (.val 1) (.val 1) "obs" "lin-lin" "new-src" = .ok jt
      ∧ (jt.getCol "T_start").map AColumn.values
          = (tbl1.getCol "StartTime").map (fun c => c.values.map nanToNumCell)
      ∧ (jt.getCol "T_stop").map AColumn.values
          = (tbl1.getCol "StopTime").map (fun c => c.values.map nanToNumCell)
      ∧ nanToNumCell (.fval .nan) = .fval (.val 0)
      ∧ (jt.getCol "UL").map AColumn.values
          = some (List.replicate tbl1.nrows (CellVal.bval false)) :=
  to_jetset_nan_and_ul r1 tbl1 (.val 1) (.val 1) "obs" "lin-lin" "new-src"
    (by decide) (by decide) (by decide) (by decide) (by decide)

/-- C5: the parameter constraints of `to_jetset` reject out-of-range z and
ul_cl and invalid enum strings, each with its own error, but an empty
`obj_name` is accepted and a table is returned, contradicting the documented
`ValueError` for an empty object name. -/
theorem to_jetset_param_validation :
    Response.to_jetset r1 (.val 2) (.val 1) "obs" "lin-lin" "new-src"
        = .error .invalidZ
      ∧ Response.to_jetset r1 (.val 1) (.val 2) "obs" "lin-lin" "new-src"
        = .error .invalidUlCl
      ∧ Response.to_jetset r1 (.val 1) (.val 1) "observed" "lin-lin" "new-src"
        = .error .invalidRestframe
      ∧ Response.to_jetset r1 (.val 1) (.val 1) "obs" "linear" "new-src"
        = .error .invalidDataScale
      ∧ (Response.to_jetset r1 (.val 1) (.val 1) "obs" "lin-lin" "").toOption.isSome
        = true := by
  decide

/-- C4 (amended): when the source table lacks columns required by the rename
map, the `to_jetset` body fails with a `KeyError` naming the FIRST missing
column in access order, not all of them. -/
theorem jetset_first_missing_column (t : AstroTable) (z ul : PyFloat)
    (rf ds objName : String) (n : String)
    (h : jetsetRequired.find? (fun m => (t.getCol m).isNone) = some n) :
    jetsetFromTable t z ul rf ds objName = .error (.keyError n) := by
  unfold jetsetRequired at h
  cases h1 : t.getCol "Frequency" with
  | none =>
    rw [List.find?_cons_of_pos _ (by simp [h1])] at h
    injection h with h
    subst h
    simp [jetsetFromTable, getColE, h1]
    rfl
  | some c1 =>
  rw [List.find?_cons_of_neg _ (by simp [h1])] at h
  cases h2 : t.getCol "FrequencyError" with
  | none =>
    rw [List.find?_cons_of_pos _ (by simp [h2])] at h
    injection h with h
    subst h
    simp [jetsetFromTable, getColE, h1, h2]
    rfl
  | some c2 =>
  rw [List.find?_cons_of_neg _ (by simp [h2])] at h
  cases h3 : t.getCol "Nufnu" with
  | none =>
    rw [List.find?_cons_of_pos _ (by simp [h3])] at h
    injection h with h
    subst h
    simp [jetsetFromTable, getColE, h1, h2, h3]
    rfl
  | some c3 =>
  rw [List.find?_cons_of_neg _ (by simp [h3])] at h
  cases h4 : t.getCol "NufnuError" with
  | none =>
    rw [List.find?_cons_of_pos _ (by simp [h4])] at h
    injection h with h
    subst h
    simp [jetsetFromTable, getColE, h1, h2, h3, h4]
    rfl
  | some c4 =>
  rw [List.find?_cons_of_neg _ (by simp [h4])] at h
  cases h5 : t.getCol "StartTime" with
  | none =>
    rw [List.find?_cons_of_pos _ (by simp [h5])] at h
    injection h with h
    subst h
    simp [jetsetFromTable, getColE, h1, h2, h3, h4, h5]
    rfl
  | some c5 =>
  rw [List.find?_cons_of_neg _ (by simp [h5])] at h
  cases h6 : t.getCol "StopTime" with
  | none =>
    rw [List.find?_cons_of_pos _ (by simp [h6])] at h
    injection h with h
    subst h
    simp [jetsetFromTable, getColE, h1, h2, h3, h4, h5, h6]
    rfl
  | some c6 =>
  rw [List.find?_cons_of_neg _ (by simp [h6])] at h
  cases h7 : t.getCol "CatalogName" with
  | none =>
    rw [List.find?_cons_of_pos _ (by simp [h7])] at h
    injection h with h
    subst h
    simp [jetsetFromTable, getColE, h1, h2, h3, h4, h5, h6, h7]
    rfl
  | some c7 =>
  rw [List.find?_cons_of_neg _ (by simp [h7])] at h
  simp at h

/-- C4 (witness): on the sample table lacking StartTime and StopTime, the
first missing column in access order is StartTime and the body fails naming
it. -/
theorem jetset_first_missing_column_witness :
    jetsetRequired.find? (fun m => (t0.getCol m).isNone) = some "StartTime"
      ∧ jetsetFromTable t0 (.val 1) (.val 1) "obs" "lin-lin" "new-src"
        = .error (.keyError "StartTime") :=
  ⟨by decide,
   jetset_first_missing_column t0 (.val 1) (.val 1) "obs" "lin-lin" "new-src"
     "StartTime" (by decide)⟩

/-- C4 (counterexample): the sample table lacks both StartTime and StopTime,
yet the failure names only StartTime, so the error does not name all missing
columns at once. -/
theorem jetset_missing_column_counterexample :
    jetsetFromTable t0 (.val 1) (.val 1) "obs" "lin-lin" "new-src"
        = .error (.keyError "StartTime")
      ∧ t0.getCol "StopTime" = none
      ∧ t0.getCol "StartTime" = none := by
  decide

/-- Filtering out bindings of key `k` does not change lookups of another key. -/
theorem find?_filter_ne (l : List (String × JVal)) (k q : String) (h : q ≠ k) :
    (l.filter (fun p => p.1 != k)).find? (fun p => p.1 == q)
      = l.find? (fun p => p.1 == q) := by
  induction l with
  | nil => rfl
  | cons p tl ih =>
    by_cases hq : p.1 = q
    · have h1 : (p.1 != k) = true := by simp [hq, h]
      simp [List.filter_cons, h1, List.find?, hq, h]
    · have h2 : (p.1 == q) = false := by simp [hq]
      by_cases hk : p.1 = k
      · have h1 : ¬ (p.1 != k) = true := by simp [hk]
        simp [List.filter_cons, h1, List.find?, h2, ih]
      · have h1 : (p.1 != k) = true := by simp [hk]
        simp [List.filter_cons, h1, List.find?, h2, ih]

/-- Looking up the replaced key finds the new value. -/
theorem getField_setKey_same (row : RawRow) (k : String) (v : JVal) :
    getField (setKey row k v) k = some v := by
  unfold getField setKey
  rw [List.find?_cons_of_pos _ (by simp)]
  rfl

/-- Looking up any other key is unchanged by the replacement. -/
theorem getField_setKey_other (row : RawRow) (k : String) (v : JVal) (q : String)
    (h : q ≠ k) : getField (setKey row k v) q = getField row q := by
  unfold getField setKey
  rw [List.find?_cons_of_neg _ (by simp [Ne.symm h]), find?_filter_ne row k q h]

/-- Replacing `statusCode` with any string keeps `ResponseInfo` decodable and
only changes the status code. -/
theorem decodeResponseInfo_setKey (row : RawRow) (ri : ResponseInfo) (s : String)
    (h : decodeResponseInfo row = some ri) :
    decodeResponseInfo (setKey row "statusCode" (.jstr s)) = some ⟨s, ri.message⟩ := by
  unfold decodeResponseInfo at h ⊢
  rcases hsc : decodeReqStr row "statusCode" with _ | sc
  · rw [hsc] at h
    exact Option.noConfusion h
  · rw [hsc] at h
    rcases hmsg : decodeOptStr row "message" none with _ | msg
    · rw [hmsg] at h
      exact Option.noConfusion h
    · rw [hmsg] at h
      have hri : ri = ⟨sc, msg⟩ := by
        cases h
        rfl
      have hnew : decodeReqStr (setKey row "statusCode" (.jstr s)) "statusCode"
          = some s := by
        unfold decodeReqStr
        rw [getField_setKey_same]
      have hnewmsg : decodeOptStr (setKey row "statusCode" (.jstr s)) "message" none
          = some msg := by
        unfold decodeOptStr at hmsg ⊢
        rw [getField_setKey_other row "statusCode" (.jstr s) "message" (by decide)]
        exact hmsg
      rw [hnew, hnewmsg, hri]
      rfl

/-- Any element mapped to `none` makes the whole `mapM` produce `none`. -/
theorem mapM_eq_none_of_mem {α β : Type} (f : α → Option β) (a : α)
    (hf : f a = none) : ∀ l : List α, a ∈ l → l.mapM f = none := by
  intro l
  induction l with
  | nil => intro ha; cases ha
  | cons x xs ih =>
    intro ha
    rcases List.mem_cons.mp ha with hh | hh
    · subst hh
      rw [List.mapM_cons, hf]
      rfl
    · cases hx : f x with
      | none =>
        rw [List.mapM_cons, hx]
        rfl
      | some b =>
        rw [List.mapM_cons, hx]
        show (xs.mapM f >>= fun ys => pure (b :: ys)) = none
        rw [ih hh]
        rfl

/-- A row matching neither variant fails the whole response validation. -/
theorem decodeResponse_none_of_bad_row (raw : RawResponse) (ce : RawCatalogEntry)
    (row : RawRow) (hce : ce ∈ raw.catalogs) (hrow : row ∈ ce.sourceData)
    (hbad : decodeRow row = none) : decodeResponse raw = none := by
  have hentry : decodeCatalogEntry ce = none := by
    unfold decodeCatalogEntry
    rcases hc : decodeCatalog ce.catalog with _ | c
    · rfl
    · show (ce.sourceData.mapM decodeRow
          >>= fun rows => pure (⟨c, rows⟩ : CatalogEntry)) = none
      rw [mapM_eq_none_of_mem decodeRow row hbad ce.sourceData hrow]
      rfl
  unfold decodeResponse
  rcases hri : decodeResponseInfo raw.responseInfo with _ | ri
  · rfl
  · rcases hp : decodeProperties raw.properties with _ | p
    · rfl
    · show (raw.catalogs.mapM decodeCatalogEntry
          >>= fun cats => pure (⟨ri, p, cats⟩ : Response)) = none
      rw [mapM_eq_none_of_mem decodeCatalogEntry ce hentry raw.catalogs hce]
      rfl

/-- C6: a syntactically valid response body parses into a `Response` whatever
its `statusCode` string is; `is_successful` is true exactly when the status
code is `"OK"`, and it depends on no other field. -/
theorem status_code_contract :
    (∀ (raw : RawResponse) (r : Response) (s : String),
        decodeResponse raw = some r →
          decodeResponse (withStatusCode raw s)
            = some ⟨⟨s, r.ResponseInfo.message⟩, r.Properties, r.Catalogs⟩)
      ∧ (∀ r : Response, r.is_successful = true ↔ r.ResponseInfo.statusCode = "OK")
      ∧ (∀ r q : Response, r.ResponseInfo.statusCode = q.ResponseInfo.statusCode →
          r.is_successful = q.is_successful) := by
  refine ⟨?_, ?_, ?_⟩
  · intro raw r s h
    unfold decodeResponse at h
    rcases Option.bind_eq_some.mp h with ⟨ri, hri, h2⟩
    rcases Option.bind_eq_some.mp h2 with ⟨p, hp, h3⟩
    rcases Option.bind_eq_some.mp h3 with ⟨cats, hcats, h4⟩
    have hr : r = ⟨ri, p, cats⟩ := (Option.some.inj h4).symm
    subst hr
    unfold decodeResponse
    show (decodeResponseInfo (setKey raw.responseInfo "statusCode" (JVal.jstr s))
        >>= fun a => decodeProperties raw.properties
        >>= fun b => raw.catalogs.mapM decodeCatalogEntry
        >>= fun c => pure (⟨a, b, c⟩ : Response)) =
      some ⟨⟨s, ri.message⟩, p, cats⟩
    simp only [decodeResponseInfo_setKey raw.responseInfo ri s hri, hp, hcats,
      Option.some_bind]
    rfl
  · intro r
    simp [Response.is_successful]
  · intro r q h
    simp [Response.is_successful, h]

/-- C6 (witness): the contract applied to the concrete raw body, with the
status replaced by a non-OK string. -/
theorem status_code_contract_witness :
    decodeResponse (withStatusCode raw1 "FAILED")
        = some ⟨⟨"FAILED", none⟩, ⟨.val 1⟩, []⟩
      ∧ (Response.is_successful ⟨⟨"FAILED", none⟩, ⟨.val 1⟩, []⟩ = true
          ↔ ("FAILED" : String) = "OK") :=
  ⟨status_code_contract.1 raw1 ⟨⟨"OK", none⟩, ⟨.val 1⟩, []⟩ "FAILED" (by decide),
   status_code_contract.2.1 ⟨⟨"FAILED", none⟩, ⟨.val 1⟩, []⟩⟩

/-- C7: `get_data` accepts every coordinate pair with ra in [0, 360) and dec
in [-90, 90], and rejects ra = 360, negative ra, dec beyond ±90, NaN and the
infinities, before any network call. -/
theorem get_data_coordinate_validation :
    (∀ q p : ℚ, 0 ≤ q → q < 360 → -90 ≤ p → p ≤ 90 →
        get_data (.val q) (.val p) = .networkCall (.val q) (.val p))
      ∧ (∀ d : PyFloat, get_data (.val 360) d = .rejected)
      ∧ (∀ q : ℚ, q < 0 → ∀ d : PyFloat, get_data (.val q) d = .rejected)
      ∧ (∀ a : PyFloat, ∀ p : ℚ, 90 < p → get_data a (.val p) = .rejected)
      ∧ (∀ a : PyFloat, ∀ p : ℚ, p < -90 → get_data a (.val p) = .rejected)
      ∧ (∀ d : PyFloat, get_data .nan d = .rejected)
      ∧ (∀ a : PyFloat, get_data a .nan = .rejected)
      ∧ (∀ d : PyFloat, get_data .inf d = .rejected)
      ∧ (∀ a : PyFloat, get_data a .inf = .rejected)
      ∧ (∀ d : PyFloat, get_data .neginf d = .rejected)
      ∧ (∀ a : PyFloat, get_data a .neginf = .rejected) := by
  refine ⟨?_, ?_, ?_, ?_, ?_, ?_, ?_, ?_, ?_, ?_, ?_⟩
  · intro q p h1 h2 h3 h4
    have hv : validCoordinates (.val q) (.val p) = true := by
      simp [validCoordinates, PyFloat.le, PyFloat.lt, h1, h2, h3, h4]
    simp [get_data, hv]
  · intro d
    have hv : validCoordinates (.val 360) d = false := by
      simp [validCoordinates, PyFloat.lt]
    simp [get_data, hv]
  · intro q h d
    have hd : decide ((0:ℚ) ≤ q) = false := decide_eq_false (not_le.mpr h)
    have hv : validCoordinates (.val q) d = false := by
      simp [validCoordinates, PyFloat.le, hd]
    simp [get_data, hv]
  · intro a p h
    have hd : decide (p ≤ (90:ℚ)) = false := decide_eq_false (not_le.mpr h)
    have hv : validCoordinates a (.val p) = false := by
      simp [validCoordinates, PyFloat.le, hd]
    simp [get_data, hv]
  · intro a p h
    have hd : decide ((-90:ℚ) ≤ p) = false := decide_eq_false (not_le.mpr h)
    have hv : validCoordinates a (.val p) = false := by
      simp [validCoordinates, PyFloat.le, hd]
    simp [get_data, hv]
  · intro d
    simp [get_data, validCoordinates, PyFloat.le]
  · intro a
    simp [get_data, validCoordinates, PyFloat.le]
  · intro d
    simp [get_data, validCoordinates, PyFloat.le, PyFloat.lt]
  · intro a
    simp [get_data, validCoordinates, PyFloat.le]
  · intro d
    simp [get_data, validCoordinates, PyFloat.le]
  · intro a
    simp [get_data, validCoordinates, PyFloat.le]

/-- C7 (witness): the validation theorem applied at concrete coordinates. -/
theorem get_data_coordinate_validation_witness :
    get_data (.val 83) (.val 22) = .networkCall (.val 83) (.val 22)
      ∧ get_data (.val 360) (.val 0) = .rejected
      ∧ get_data (.val (-1)) (.val 0) = .rejected
      ∧ get_data (.val 0) (.val 91) = .rejected
      ∧ get_data (.val 0) (.val (-91)) = .rejected
      ∧ get_data .nan (.val 0) = .rejected
      ∧ get_data (.val 0) .nan = .rejected
      ∧ get_data .inf (.val 0) = .rejected
      ∧ get_data (.val 0) .inf = .rejected
      ∧ get_data .neginf (.val 0) = .rejected
      ∧ get_data (.val 0) .neginf = .rejected :=
  ⟨get_data_coordinate_validation.1 83 22 (by norm_num) (by norm_num)
      (by norm_num) (by norm_num),
   get_data_coordinate_validation.2.1 (.val 0),
   get_data_coordinate_validation.2.2.1 (-1) (by norm_num) (.val 0),
   get_data_coordinate_validation.2.2.2.1 (.val 0) 91 (by norm_num),
   get_data_coordinate_validation.2.2.2.2.1 (.val 0) (-91) (by norm_num),
   get_data_coordinate_validation.2.2.2.2.2.1 (.val 0),
   get_data_coordinate_validation.2.2.2.2.2.2.1 (.val 0),
   get_data_coordinate_validation.2.2.2.2.2.2.2.1 (.val 0),
   get_data_coordinate_validation.2.2.2.2.2.2.2.2.1 (.val 0),
   get_data_coordinate_validation.2.2.2.2.2.2.2.2.2.1 (.val 0),
   get_data_coordinate_validation.2.2.2.2.2.2.2.2.2.2 (.val 0)⟩

/-- C8: a row with valid required measurement fields decodes as a
measurement; otherwise a row matching the warning shape decodes as a warning
stub; a row matching neither fails, and such a row fails the whole response
validation; a row never decodes as both variants. -/
theorem row_variant_resolution :
    (∀ (row : RawRow) (m : SourceData), decodeSourceData row = some m →
        decodeRow row = some (.measurement m))
      ∧ (∀ (row : RawRow) (w : UpperLimits), decodeSourceData row = none →
          decodeUpperLimits row = some w → decodeRow row = some (.warning w))
      ∧ (∀ row : RawRow, decodeSourceData row = none →
          decodeUpperLimits row = none → decodeRow row = none)
      ∧ (∀ (raw : RawResponse) (ce : RawCatalogEntry) (row : RawRow),
          ce ∈ raw.catalogs → row ∈ ce.sourceData → decodeRow row = none →
          decodeResponse raw = none)
      ∧ (∀ (row : RawRow) (m : SourceData) (w : UpperLimits),
          decodeRow row = some (.measurement m) →
          decodeRow row ≠ some (.warning w)) := by
  refine ⟨?_, ?_, ?_, ?_, ?_⟩
  · intro row m h
    simp [decodeRow, h]
  · intro row w h1 h2
    simp [decodeRow, h1, h2]
  · intro row h1 h2
    simp [decodeRow, h1, h2]
  · exact decodeResponse_none_of_bad_row
  · intro row m w h1
    rw [h1]
    intro hc
    exact RowData.noConfusion (Option.some.inj hc)

/-- C8 (witness): the resolution theorem applied to a concrete measurement
row, warning row, unmatchable row, and a response containing the latter. -/
theorem row_variant_resolution_witness :
    decodeRow rowM = some (.measurement
        ⟨.val 1, .val 2, .val 0, .val 3, some "", none, none, none, some ""⟩)
      ∧ decodeRow rowW = some (.warning ⟨some "Upper Limit"⟩)
      ∧ decodeRow rowBad = none
      ∧ decodeResponse rawBad = none :=
  ⟨row_variant_resolution.1 rowM _ (by decide),
   row_variant_resolution.2.1 rowW _ (by decide) (by decide),
   row_variant_resolution.2.2.1 rowBad (by decide) (by decide),
   row_variant_resolution.2.2.2.1 rawBad
     ⟨[("CatalogName", .jstr "C1"), ("ErrorRadius", .jnum (.val 5))], [rowBad]⟩
     rowBad (List.mem_singleton.mpr rfl) (List.mem_singleton.mpr rfl) (by decide)⟩
